import Mathlib

/-!
# Verification of the AutoQuote session/cache orchestration subsystem

Shallow embedding of the backend session, cache, polling and quote-ranking
logic of the AutoQuote vehicle-repair agent
(`frontend/src/App.tsx`), together with proofs of the
specified properties.

Modelling conventions:
* JavaScript numbers that are only compared, rendered with two decimals, or
  used as identifiers are modelled as `Int` (prices, timestamps) or `ℚ`
  (geographic coordinates, ratings, distances); no operation in the embedded
  code creates a fractional price, so this is faithful for the covered code.
* `undefined`-able object fields become `Option` fields; the JavaScript
  truthiness tests the code performs (`x || y`, `if (x)`) are embedded
  explicitly, including the falsiness of the empty string and of `0`.
* Asynchronous effects are embedded by explicit state passing: a network
  call that can fail takes its outcome (success data or failure) as an
  input, and a handler returns the response value it would serialize.
  A total Lean function models a handler that cannot throw to its caller.
-/

namespace AutoQuote

/-- A repair-shop record as produced by the research fetch, the cache and
`generateMockShops` (fields of the mock dataset; `website` is absent for
one mock shop, hence optional). -/
structure Shop where
  shop_name : String
  address : String
  city : String
  state : String
  zip_code : String
  phone_number : String
  website : Option String := none
  rating : ℚ
  review_count : Nat
  reviews : List String
  services : List String
  hours_of_operation : String
  latitude : ℚ
  longitude : ℚ
  distance_miles : ℚ
deriving DecidableEq, Repr

/-- Local (file-tier) cache entry, mirroring `interface CacheEntry`:
`{ location, shops, timestamp, damage_description? }`. -/
structure CacheEntry where
  location : String
  shops : List Shop
  timestamp : Int
  damage_description : Option String
deriving DecidableEq, Repr

/-- The `entries` object of the local JSON cache file, keyed by cache key.
An absent key maps to `none`. -/
def CacheData : Type := String → Option CacheEntry

/-- True exactly on the characters the key normalization keeps, i.e. the
class `[a-z0-9]` of the regex in `getCacheKey`. -/
def isLowerAlnum (c : Char) : Bool :=
  (decide ('a' ≤ c) && decide (c ≤ 'z')) || (decide ('0' ≤ c) && decide (c ≤ '9'))

/-- Embeds `getCacheKey`: lowercase the location string, then replace every
character outside `[a-z0-9]` with an underscore
(`location.toLowerCase().replace(/[^a-z0-9]/g, '_')`). Both steps are
character-wise, so they are fused into one traversal of the character
list. -/
def getCacheKey (location : String) : String :=
  ⟨location.toList.map (fun c =>
    let lc := c.toLower
    if isLowerAlnum lc then lc else '_')⟩

/-- Embeds `getCachedResults`: look the normalized key up in the local
cache file (`cache.entries[key] || null`). -/
def getCachedResults (cache : CacheData) (location : String) : Option CacheEntry :=
  cache (getCacheKey location)

/-- The local-file part of `updateCache`/`updateCacheAsync` (both perform
the identical local write): overwrite `cache.entries[key]` with a fresh
entry carrying the current time `now`. -/
def updateCacheLocal (cache : CacheData) (location : String) (shops : List Shop)
    (damageDescription : Option String) (now : Int) : CacheData :=
  fun k =>
    if k = getCacheKey location then
      some { location := location, shops := shops, timestamp := now,
             damage_description := damageDescription }
    else cache k

/-- A DynamoDB item as written by `saveToDynamoDB`. -/
structure RemoteItem where
  pk : String
  location : String
  shops : List Shop
  timestamp : Int
  damage_description : String
  ttl : Int
deriving DecidableEq, Repr

/-- The DynamoDB table, keyed by partition key `pk`. -/
def RemoteDB : Type := String → Option RemoteItem

/-- Embeds `saveToDynamoDB`. `enabled` mirrors `dynamoDbClient !== null`
(AWS credentials present); `failWrite` is the outcome of the `PutCommand`
network call. The function is total: when the client is missing it returns
immediately, and a write failure is caught and logged, leaving the table
unchanged — no error ever escapes to the caller. `now / 1000` mirrors
`Math.floor(Date.now() / 1000)` (timestamps are nonnegative). -/
def saveToDynamoDB (enabled failWrite : Bool) (db : RemoteDB)
    (location : String) (shops : List Shop) (damageDescription : Option String)
    (now : Int) : RemoteDB :=
  if !enabled then db
  else if failWrite then db
  else fun k =>
    if k = getCacheKey location then
      some { pk := getCacheKey location, location := location, shops := shops,
             timestamp := now,
             damage_description := damageDescription.getD "",
             ttl := now / 1000 + 7 * 24 * 60 * 60 }
    else db k

/-- Embeds `getFromDynamoDB`: with no client or a failed `GetCommand` the
(caught) result is `null`; otherwise the item stored under the normalized
key, if any. -/
def getFromDynamoDB (enabled failRead : Bool) (db : RemoteDB)
    (location : String) : Option RemoteItem :=
  if !enabled then none
  else if failRead then none
  else db (getCacheKey location)

/-- Embeds `getCachedResultsAsync`: consult the local file tier first; on a
local miss consult DynamoDB and convert a hit into a `CacheEntry`. The
second component is the local cache after the lookup — the source performs
no local write on any path, so it is returned unchanged. -/
def getCachedResultsAsync (cache : CacheData) (enabled failRead : Bool)
    (db : RemoteDB) (location : String) : Option CacheEntry × CacheData :=
  match getCachedResults cache location with
  | some localCache => (some localCache, cache)
  | none =>
    match getFromDynamoDB enabled failRead db location with
    | some dynamoData =>
      (some { location := dynamoData.location, shops := dynamoData.shops,
              timestamp := dynamoData.timestamp,
              damage_description := some dynamoData.damage_description }, cache)
    | none => (none, cache)

/-- Result of one cache `put`: the local cache after the synchronous file
write, the DynamoDB table once the remote write has settled, and whether
the calling code resumes only after the remote write settles
(`await saveToDynamoDB(...)`) or detaches it (`saveToDynamoDB(...).catch(...)`). -/
structure CachePutOutcome where
  localCache : CacheData
  remoteDB : RemoteDB
  callerAwaitsRemote : Bool

/-- Embeds `updateCache`: write the entry to the local file cache, then
start the DynamoDB write with `.catch(...)` and return without awaiting
it (`callerAwaitsRemote := false`). -/
def updateCache (cache : CacheData) (db : RemoteDB) (enabled failWrite : Bool)
    (location : String) (shops : List Shop) (damageDescription : Option String)
    (now : Int) : CachePutOutcome :=
  { localCache := updateCacheLocal cache location shops damageDescription now,
    remoteDB := saveToDynamoDB enabled failWrite db location shops damageDescription now,
    callerAwaitsRemote := false }

/-- Embeds `updateCacheAsync`: the same two writes, but the DynamoDB write
is awaited (`await saveToDynamoDB(...)` inside `try`), so the caller
resumes only after the remote write settles (`callerAwaitsRemote := true`).
This is the variant the shop-fetch completion path calls. -/
def updateCacheAsync (cache : CacheData) (db : RemoteDB) (enabled failWrite : Bool)
    (location : String) (shops : List Shop) (damageDescription : Option String)
    (now : Int) : CachePutOutcome :=
  { localCache := updateCacheLocal cache location shops damageDescription now,
    remoteDB := saveToDynamoDB enabled failWrite db location shops damageDescription now,
    callerAwaitsRemote := true }

/-- A price quotation extracted from a completed call
(`VapiCallResult.quotation`). Prices are modelled as `Int`. -/
structure Quotation where
  price : Int
  currency : String
  estimatedDays : Option Int := none
  notes : Option String := none
deriving DecidableEq, Repr

/-- Outcome of one quote call, mirroring `interface VapiCallResult`
(fields the orchestration logic reads). `status` is the remote call
status string (`queued`/`ringing`/`in-progress`/`ended`/`failed`). -/
structure VapiCallResult where
  callId : String
  shopName : String
  phoneNumber : String
  status : String
  transcript : Option String := none
  summary : Option String := none
  quotation : Option Quotation := none
  duration : Option Int := none
deriving DecidableEq, Repr

/-- The filter predicate of `analyzeAndRankQuotes`:
`r.quotation && r.quotation.price > 0`. -/
def hasValidQuote (r : VapiCallResult) : Bool :=
  match r.quotation with
  | some q => decide (q.price > 0)
  | none => false

/-- The comparator key `a.quotation?.price || Infinity` of the sort in
`analyzeAndRankQuotes`: a missing quotation, and a price of `0` (falsy in
JavaScript), both count as `Infinity`, embedded as `⊤` in `WithTop Int`. -/
def sortKey (r : VapiCallResult) : WithTop Int :=
  match r.quotation with
  | some q => if q.price = 0 then ⊤ else (q.price : WithTop Int)
  | none => ⊤

/-- The sort order of `analyzeAndRankQuotes`: ascending by price key.
JavaScript `Array.prototype.sort` is stable, so the sort is embedded as a
stable insertion sort under this total preorder. -/
def quoteLE (a b : VapiCallResult) : Prop := sortKey a ≤ sortKey b

instance : DecidableRel quoteLE :=
  fun a b => inferInstanceAs (Decidable (sortKey a ≤ sortKey b))

instance : IsTotal VapiCallResult quoteLE :=
  ⟨fun a b => le_total (sortKey a) (sortKey b)⟩

instance : IsTrans VapiCallResult quoteLE :=
  ⟨fun _ _ _ hab hbc => le_trans hab hbc⟩

/-- Renders an integer price the way `price.toFixed(2)` renders it. -/
def toFixed2 (n : Int) : String := toString n ++ ".00"

/-- The price text interpolated into a summary line
(`r.quotation?.price?.toFixed(2)`; all ranked results carry a quotation). -/
def priceText (r : VapiCallResult) : String :=
  match r.quotation with
  | some q => toFixed2 q.price
  | none => "undefined"

/-- One numbered line of the summary built by `analyzeAndRankQuotes`; the
estimated-days suffix is appended only when `r.quotation?.estimatedDays`
is truthy (present and nonzero). -/
def quoteLine (i : Nat) (r : VapiCallResult) : String :=
  let base := toString (i + 1) ++ ". " ++ r.shopName ++ ": $" ++ priceText r
  let withDays :=
    match r.quotation with
    | some q =>
      match q.estimatedDays with
      | some d => if d = 0 then base else base ++ " (" ++ toString d ++ " days)"
      | none => base
    | none => base
  withDays ++ "\n"

/-- Result record of `analyzeAndRankQuotes`. -/
structure QuoteAnalysis where
  ranked : List VapiCallResult
  bestOption : Option VapiCallResult
  summary : String
deriving DecidableEq, Repr

/-- Embeds `analyzeAndRankQuotes`: filter to results with a quotation whose
price is positive, sort ascending by price (stably — JavaScript sort),
take the cheapest as `bestOption` (`ranked[0]`, absent when empty), and
build the human-readable summary string. -/
def analyzeAndRankQuotes (results : List VapiCallResult) : QuoteAnalysis :=
  let resultsWithQuotes := results.filter hasValidQuote
  let ranked := List.insertionSort quoteLE resultsWithQuotes
  let bestOption := ranked.head?
  let summary :=
    "Analyzed " ++ toString results.length ++ " repair shop(s).\n" ++
      (if resultsWithQuotes.length = 0 then
        "No quotations were obtained from the calls."
      else
        "Received " ++ toString resultsWithQuotes.length ++ " quote(s):\n\n" ++
          String.join (ranked.enum.map (fun p => quoteLine p.1 p.2)) ++
          (match bestOption with
           | some best =>
             "\n✅ RECOMMENDED: " ++ best.shopName ++
               " with the lowest quote of $" ++ priceText best
           | none => ""))
  { ranked := ranked, bestOption := bestOption, summary := summary }

/-- Character-list prefix test (for the substring test below). -/
def isPrefixChars : List Char → List Char → Bool
  | [], _ => true
  | _ :: _, [] => false
  | c :: cs, d :: ds => c == d && isPrefixChars cs ds

/-- Whether `pat` occurs as a contiguous run inside `s`. -/
def containsChars (pat : List Char) : List Char → Bool
  | [] => isPrefixChars pat []
  | c :: rest => isPrefixChars pat (c :: rest) || containsChars pat rest

/-- Substring test used to state what a summary mentions. -/
def strContains (s pat : String) : Bool := containsChars pat.toList s.toList

/-! ## Polling constants

The three background poll loops and the fetch-race timeout. -/

/-- `maxWaitTime` of `pollCallsForCompletion` (`5 * 60 * 1000`). -/
def CALL_POLL_MAX_WAIT_MS : Nat := 5 * 60 * 1000

/-- `pollInterval` of `pollCallsForCompletion`. -/
def CALL_POLL_INTERVAL_MS : Nat := 5000

/-- `maxWaitTime` of `pollBookingForCompletion` (`5 * 60 * 1000`). -/
def BOOKING_POLL_MAX_WAIT_MS : Nat := 5 * 60 * 1000

/-- `pollInterval` of `pollBookingForCompletion`. -/
def BOOKING_POLL_INTERVAL_MS : Nat := 5000

/-- `maxAttempts` default of `pollYutoriResearch`. -/
def YUTORI_POLL_MAX_ATTEMPTS : Nat := 60

/-- Sleep before each status check in `pollYutoriResearch`. -/
def YUTORI_POLL_INTERVAL_MS : Nat := 5000

/-- Maximum wait budget of `pollYutoriResearch`: 60 attempts of a 5000 ms
sleep followed by a status check. -/
def YUTORI_POLL_MAX_WAIT_MS : Nat := YUTORI_POLL_MAX_ATTEMPTS * YUTORI_POLL_INTERVAL_MS

/-- `API_TIMEOUT_MS`, the fetch-or-cache race timeout of the
search-shops endpoint. -/
def API_TIMEOUT_MS : Nat := 15000

/-! ## Sessions and their background poll loops -/

/-- The local state machine of call and booking sessions:
`'calling' | 'completed' | 'failed'`. -/
inductive SessionStatus
  | calling
  | completed
  | failed
deriving DecidableEq, Repr

/-- A remote call status is terminal exactly when it is `ended` or `failed`
(the test `result.status !== 'ended' && result.status !== 'failed'` in the
poll loops, negated). -/
def isTerminalCallStatus (s : String) : Bool := s == "ended" || s == "failed"

/-- Snapshot of one shop being called, as built by the call-shops endpoint
(`{ name, phone, address }`). -/
structure ShopContact where
  name : String
  phone : String
  address : String
deriving DecidableEq, Repr

/-- Mirrors `interface CallSession`. -/
structure CallSession where
  sessionId : String
  callIds : List String
  shops : List ShopContact
  damageDescription : String
  status : SessionStatus
  startTime : Int
  results : Option (List VapiCallResult) := none
  analysis : Option QuoteAnalysis := none
deriving DecidableEq, Repr

/-- One iteration of the `while` loop of `pollCallsForCompletion` in which
every `getCall` succeeds: fetch the current result of each call in
`callIds` in order, store them in `session.results` (persisted), and when
every call is terminal set the status to `completed` and attach the
ranking analysis; otherwise leave the status untouched. `fetch` maps a
call id to the `VapiCallResult` the remote service returns this cycle. -/
def pollCallsCycle (session : CallSession) (fetch : String → VapiCallResult) :
    CallSession :=
  let results := session.callIds.map fetch
  let allCompleted := results.all (fun r => isTerminalCallStatus r.status)
  if allCompleted then
    { session with
      results := some results,
      status := .completed,
      analysis := some (analyzeAndRankQuotes results) }
  else
    { session with results := some results }

/-- The post-loop timeout path of `pollCallsForCompletion`: after
`CALL_POLL_MAX_WAIT_MS` without completion the session is marked failed. -/
def pollCallsTimeout (session : CallSession) : CallSession :=
  { session with status := .failed }

/-- Mirrors `interface BookingCallResult`. -/
structure BookingCallResult where
  callId : String
  shopName : String
  phoneNumber : String
  status : String
  transcript : Option String := none
  summary : Option String := none
  appointmentBooked : Bool
  appointmentDate : Option String := none
  appointmentTime : Option String := none
  confirmationNumber : Option String := none
  specialInstructions : Option String := none
  estimatedCompletion : Option String := none
  alternativeDateOffered : Option String := none
  duration : Option Int := none
deriving DecidableEq, Repr

/-- Mirrors `interface BookingSession`. -/
structure BookingSession where
  bookingId : String
  callId : String
  shopName : String
  shopPhone : String
  shopAddress : String
  customerName : String
  customerPhone : String
  damageDescription : String
  requestedDate : String
  status : SessionStatus
  startTime : Int
  result : Option BookingCallResult := none
deriving DecidableEq, Repr

/-- One iteration of the `while` loop of `pollBookingForCompletion` in
which `getBookingResult` succeeds: store the fetched result (persisted);
when the call is terminal, the status becomes `completed` when
`result.appointmentBooked` holds and `failed` otherwise. -/
def pollBookingCycle (booking : BookingSession) (result : BookingCallResult) :
    BookingSession :=
  let updated := { booking with result := some result }
  if isTerminalCallStatus result.status then
    { updated with
      status := if result.appointmentBooked then .completed else .failed }
  else updated

/-- The post-loop timeout path of `pollBookingForCompletion`. -/
def pollBookingTimeout (booking : BookingSession) : BookingSession :=
  { booking with status := .failed }

/-! ## The call-shops endpoint -/

/-- JavaScript string fallback `a || b`: `b` when `a` is absent or the
empty string (both falsy), else `a`. -/
def strOr (a : Option String) (b : String) : String :=
  match a with
  | some s => if s = "" then b else s
  | none => b

/-- `l.slice(0, e)` for a possibly negative end index `e`: a nonnegative
`e` takes the first `e` elements (clamped to the length); a negative `e`
counts from the end (clamped at zero, via truncated `Nat` subtraction). -/
def jsSliceTo {α : Type} (l : List α) (e : Int) : List α :=
  if 0 ≤ e then l.take e.toNat else l.take (l.length - (-e).toNat)

/-- `DEMO_PHONES` with the defaults used when the `DEMO_PHONE_*`
environment overrides are unset (the claims do not depend on the values,
only on the list having two entries). -/
def DEMO_PHONES : List String := ["+14155551234", "+14155555678"]

/-- A shop record as supplied in the call-shops request body; the handler
reads these fields with `||` fallbacks, so each textual field may be
absent. An `undefined` falling out of the end of a fallback chain is
modelled as the empty string. -/
structure InputShop where
  shop_name : Option String := none
  name : Option String := none
  phone_number : Option String := none
  phone : Option String := none
  address : String
  city : String
  state : String
deriving DecidableEq, Repr

/-- The per-shop mapping of the call-shops endpoint:
`name: shop.shop_name || shop.name`,
`phone: DEMO_PHONES[index] || shop.phone_number || shop.phone`,
`address: ` the comma-joined street/city/state. -/
def contactOfInputShop (demoPhone : Option String) (shop : InputShop) :
    ShopContact :=
  { name := strOr shop.shop_name (shop.name.getD ""),
    phone := strOr demoPhone (strOr shop.phone_number (shop.phone.getD "")),
    address := shop.address ++ ", " ++ shop.city ++ ", " ++ shop.state }

/-- `shops.slice(0, Math.min(limit, 2)).map((shop, index) => ...)` of the
call-shops endpoint. -/
def shopsToCall (shops : List InputShop) (limit : Int) : List ShopContact :=
  (jsSliceTo shops (min limit 2)).enum.map
    (fun p => contactOfInputShop (DEMO_PHONES.get? p.1) p.2)

/-- Mirrors `interface VapiCallResponse` (a successfully created call). -/
structure VapiCallResponse where
  id : String
  status : String
  shopName : String
  phoneNumber : String
  createdAt : Option String := none
deriving DecidableEq, Repr

/-- Embeds `VapiClient.callMultipleShops`: slice the shop list to `limit`,
attempt one `createCall` per remaining shop (`create s dd = none` models a
creation failure, which the source catches and maps to `null`), and keep
the non-null responses in order. -/
def callMultipleShops (shops : List ShopContact) (damageDescription : String)
    (limit : Int) (create : ShopContact → String → Option VapiCallResponse) :
    List VapiCallResponse :=
  ((jsSliceTo shops limit).map (fun s => create s damageDescription)).filterMap id

/-- What the call-shops endpoint produces: the persisted session plus the
`shopsBeingCalled` list of the JSON response, and how many `createCall`
network attempts were made. -/
structure CallShopsOutcome where
  session : CallSession
  shopsBeingCalled : List String
  attemptedCalls : Nat
deriving Repr

/-- Embeds the happy path of `POST /api/call-shops` (after the 400
validations, which create no session): build `shopsToCall`; without a
VAPI client, persist a mock session with two fixed mock call ids;
otherwise create the calls through `callMultipleShops` and persist a
session whose `callIds` are the ids of the successfully created calls. -/
def callShopsHandler (hasVapi : Bool) (shops : List InputShop)
    (damageDescription : String) (limit : Int)
    (create : ShopContact → String → Option VapiCallResponse) (now : Int) :
    CallShopsOutcome :=
  let toCall := shopsToCall shops limit
  if !hasVapi then
    { session :=
        { sessionId := "mock-" ++ toString now,
          callIds := ["mock-call-1", "mock-call-2"],
          shops := toCall, damageDescription := damageDescription,
          status := .calling, startTime := now },
      shopsBeingCalled := toCall.map (fun s => s.name),
      attemptedCalls := 0 }
  else
    let callResponses := callMultipleShops toCall damageDescription (min limit 2) create
    { session :=
        { sessionId := "session-" ++ toString now,
          callIds := callResponses.map (fun r => r.id),
          shops := toCall, damageDescription := damageDescription,
          status := .calling, startTime := now },
      shopsBeingCalled := callResponses.map (fun r => r.shopName),
      attemptedCalls := (jsSliceTo toCall (min limit 2)).length }

/-! ## The search-shops endpoint -/

/-- Embeds `generateMockShops`: the fixed deterministic fallback dataset
of five sample shops, positioned relative to the requested center. -/
def generateMockShops (centerLat centerLon : ℚ) : List Shop :=
  [ { shop_name := "Elite Auto Body & Repair",
      address := "1234 Main Street", city := "San Jose", state := "CA",
      zip_code := "95112", phone_number := "(408) 555-1234",
      website := some "https://eliteautobody.com",
      rating := 4.8, review_count := 256,
      reviews := ["Excellent service!", "Fixed my car perfectly."],
      services := ["Collision Repair", "Dent Removal", "Paint Work",
                   "Frame Straightening"],
      hours_of_operation := "Mon-Fri 8am-6pm, Sat 9am-4pm",
      latitude := centerLat + 0.01, longitude := centerLon + 0.01,
      distance_miles := 0.8 },
    { shop_name := "Pacific Coast Auto Care",
      address := "567 Oak Avenue", city := "San Jose", state := "CA",
      zip_code := "95113", phone_number := "(408) 555-5678",
      website := some "https://pacificcoastauto.com",
      rating := 4.6, review_count := 189,
      reviews := ["Great prices and quick turnaround.", "Very professional team."],
      services := ["Body Repair", "Bumper Repair", "Scratch Removal",
                   "Insurance Claims"],
      hours_of_operation := "Mon-Fri 7:30am-5:30pm",
      latitude := centerLat - 0.015, longitude := centerLon + 0.02,
      distance_miles := 1.2 },
    { shop_name := "Bay Area Collision Center",
      address := "890 Tech Drive", city := "San Jose", state := "CA",
      zip_code := "95110", phone_number := "(408) 555-8901",
      website := some "https://bayareacollision.com",
      rating := 4.9, review_count := 412,
      reviews := ["Best collision repair in the area!",
                  "They made my car look brand new."],
      services := ["Complete Collision Repair", "Paintless Dent Repair",
                   "Auto Glass", "Detailing"],
      hours_of_operation := "Mon-Sat 8am-6pm",
      latitude := centerLat + 0.02, longitude := centerLon - 0.015,
      distance_miles := 1.8 },
    { shop_name := "QuickFix Auto Body",
      address := "321 Industrial Blvd", city := "San Jose", state := "CA",
      zip_code := "95111", phone_number := "(408) 555-3210",
      website := none,
      rating := 4.4, review_count := 98,
      reviews := ["Fast and affordable!", "Good quality work."],
      services := ["Minor Repairs", "Dent Removal", "Touch-up Paint",
                   "Bumper Replacement"],
      hours_of_operation := "Mon-Fri 9am-5pm",
      latitude := centerLat - 0.008, longitude := centerLon - 0.025,
      distance_miles := 2.1 },
    { shop_name := "Premium Auto Restoration",
      address := "456 Luxury Lane", city := "San Jose", state := "CA",
      zip_code := "95125", phone_number := "(408) 555-4567",
      website := some "https://premiumautorestore.com",
      rating := 4.7, review_count := 167,
      reviews := ["Premium quality service.", "Expensive but worth it."],
      services := ["Full Restoration", "Custom Paint", "Classic Car Repair",
                   "Luxury Vehicle Specialist"],
      hours_of_operation := "Mon-Fri 8am-5pm",
      latitude := centerLat + 0.025, longitude := centerLon + 0.018,
      distance_miles := 2.5 } ]

/-- Outcome of racing the research fetch against the 15000 ms timer:
the fetch resolved first with shops, the timer fired first, or the fetch
rejected before the timer fired (caught by the surrounding `catch`). -/
inductive FetchOutcome
  | success (shops : List Shop)
  | timeout
  | errored
deriving DecidableEq, Repr

/-- The JSON payload of `POST /api/search-shops`; `none` in an `Option`
field models the field being absent from the serialized object. -/
structure SearchResponse where
  shops : List Shop
  search_location : String
  search_radius_miles : ℚ
  total_found : Nat
  damage_description : Option String
  cached : Option Bool := none
  cache_timestamp : Option Int := none
  message : Option String := none
  error : Option String := none
deriving DecidableEq, Repr

/-- The timeout branch of the search endpoint when no usable cache entry
exists: serve `generateMockShops` with `cached: true`. -/
def searchShopsMockFallback (location : String) (latitude longitude : ℚ)
    (damageDescription : Option String) (radiusMiles : ℚ) : SearchResponse :=
  { shops := generateMockShops latitude longitude,
    search_location := location, search_radius_miles := radiusMiles,
    total_found := (generateMockShops latitude longitude).length,
    damage_description := damageDescription, cached := some true,
    message := some "Showing sample results. Fresh data is being fetched in the background." }

/-- Embeds `POST /api/search-shops` after its `location` validation: with
no `YUTORI_API_KEY` serve the mock dataset directly; otherwise dispatch on
the outcome of racing the fetch against `API_TIMEOUT_MS`. On a timeout,
serve a non-empty cache entry when one exists and the mock fallback
otherwise; the in-flight fetch is left running in the background. On a
fetch error the surrounding `catch` serves mock data with an `error`
field. The handler is a total function: no branch throws to the caller. -/
def searchShopsHandler (hasYutoriKey : Bool) (location : String)
    (latitude longitude : ℚ) (damageDescription : Option String)
    (radiusMiles : ℚ) (cachedResults : Option CacheEntry)
    (race : FetchOutcome) : SearchResponse :=
  if !hasYutoriKey then
    { shops := generateMockShops latitude longitude,
      search_location := location, search_radius_miles := radiusMiles,
      total_found := 5, damage_description := damageDescription,
      cached := some false }
  else
    match race with
    | .success shops =>
      { shops := shops, search_location := location,
        search_radius_miles := radiusMiles, total_found := shops.length,
        damage_description := damageDescription, cached := some false }
    | .timeout =>
      match cachedResults with
      | some c =>
        if 0 < c.shops.length then
          { shops := c.shops, search_location := location,
            search_radius_miles := radiusMiles, total_found := c.shops.length,
            damage_description := damageDescription, cached := some true,
            cache_timestamp := some c.timestamp,
            message := some "Showing cached results. Fresh data is being fetched in the background." }
        else
          searchShopsMockFallback location latitude longitude damageDescription radiusMiles
      | none =>
        searchShopsMockFallback location latitude longitude damageDescription radiusMiles
    | .errored =>
      { shops := generateMockShops latitude longitude,
        search_location := location, search_radius_miles := radiusMiles,
        total_found := 5, damage_description := damageDescription,
        error := some "Using mock data due to API error" }

/-! ## Helper lemmas -/

/-- The sublist of `l` whose sort key is exactly `v`, in order. Two lists
that agree on `keyFilter v` for every `v` order their equal-price elements
identically, so `keyFilter` states sort stability. -/
def keyFilter (v : WithTop Int) (l : List VapiCallResult) : List VapiCallResult :=
  l.filter (fun r => decide (sortKey r = v))

theorem keyFilter_orderedInsert_eq (v : WithTop Int) (a : VapiCallResult)
    (l : List VapiCallResult) (h : sortKey a = v) :
    keyFilter v (List.orderedInsert quoteLE a l) = a :: keyFilter v l := by
  induction l with
  | nil => simp [keyFilter, List.orderedInsert, h]
  | cons b l ih =>
    by_cases hab : quoteLE a b
    · simp [keyFilter, List.orderedInsert, hab, h]
    · have hab' : ¬ sortKey a ≤ sortKey b := hab
      have hbv : sortKey b ≠ v := by
        rw [← h]
        exact ne_of_lt (lt_of_not_le hab')
      simp only [keyFilter, List.orderedInsert, if_neg hab, List.filter_cons] at ih ⊢
      simp [hbv, ih]

theorem keyFilter_orderedInsert_ne (v : WithTop Int) (a : VapiCallResult)
    (l : List VapiCallResult) (h : sortKey a ≠ v) :
    keyFilter v (List.orderedInsert quoteLE a l) = keyFilter v l := by
  induction l with
  | nil => simp [keyFilter, List.orderedInsert, h]
  | cons b l ih =>
    by_cases hab : quoteLE a b
    · simp [keyFilter, List.orderedInsert, hab, h]
    · simp only [keyFilter, List.orderedInsert, if_neg hab, List.filter_cons] at ih ⊢
      by_cases hbv : sortKey b = v
      · simp [hbv, ih]
      · simp [hbv, ih]

/-- Stability of the embedded sort: for every price key, the key-`v`
elements of the sorted list are exactly the key-`v` elements of the input,
in the input's order. -/
theorem keyFilter_insertionSort (v : WithTop Int) (l : List VapiCallResult) :
    keyFilter v (List.insertionSort quoteLE l) = keyFilter v l := by
  induction l with
  | nil => rfl
  | cons a l ih =>
    by_cases hav : sortKey a = v
    · rw [List.insertionSort, keyFilter_orderedInsert_eq v a _ hav, ih]
      simp [keyFilter, List.filter_cons, hav]
    · rw [List.insertionSort, keyFilter_orderedInsert_ne v a _ hav, ih]
      simp [keyFilter, List.filter_cons, hav]

/-! ## Claim theorems -/

/-- The concrete ranking example: shopA quoted $600. -/
def exShopA : VapiCallResult :=
  { callId := "call-a", shopName := "shopA", phoneNumber := "+14155550001",
    status := "ended", quotation := some { price := 600, currency := "USD" } }

/-- The concrete ranking example: shopB quoted $450. -/
def exShopB : VapiCallResult :=
  { callId := "call-b", shopName := "shopB", phoneNumber := "+14155550002",
    status := "ended", quotation := some { price := 450, currency := "USD" } }

/-- The concrete ranking example: shopC gave no quote. -/
def exShopC : VapiCallResult :=
  { callId := "call-c", shopName := "shopC", phoneNumber := "+14155550003",
    status := "ended" }

/-- C2: `analyzeAndRankQuotes` keeps exactly the results with a quotation
of positive price (the sorted list is a permutation of the filtered input,
and, by stability, equal-price results keep the input order, so each price
class is literally the filtered input restricted to that price); the kept
results are sorted ascending by price; `bestOption` is the head of the
sorted list; and on the concrete inputs
[($600, shopA), ($450, shopB), (no quote, shopC)] it returns
`ranked = [shopB, shopA]`, `bestOption = shopB`, and a summary that states
2 quotes were received and recommends shopB. -/
theorem quote_ranking_correct :
    (∀ rs : List VapiCallResult,
      (analyzeAndRankQuotes rs).ranked.Perm (rs.filter hasValidQuote)) ∧
    (∀ rs : List VapiCallResult,
      List.Sorted quoteLE (analyzeAndRankQuotes rs).ranked) ∧
    (∀ (rs : List VapiCallResult) (v : WithTop Int),
      keyFilter v (analyzeAndRankQuotes rs).ranked
        = keyFilter v (rs.filter hasValidQuote)) ∧
    (∀ rs : List VapiCallResult,
      (analyzeAndRankQuotes rs).bestOption = (analyzeAndRankQuotes rs).ranked.head?) ∧
    (analyzeAndRankQuotes [exShopA, exShopB, exShopC]).ranked = [exShopB, exShopA] ∧
    (analyzeAndRankQuotes [exShopA, exShopB, exShopC]).bestOption = some exShopB ∧
    strContains (analyzeAndRankQuotes [exShopA, exShopB, exShopC]).summary
      "Received 2 quote(s)" = true ∧
    strContains (analyzeAndRankQuotes [exShopA, exShopB, exShopC]).summary
      "RECOMMENDED: shopB with the lowest quote of $450.00" = true := by
  refine ⟨fun rs => ?_, fun rs => ?_, fun rs v => ?_, fun rs => ?_, ?_, ?_, ?_, ?_⟩
  · exact List.perm_insertionSort quoteLE (rs.filter hasValidQuote)
  · exact List.sorted_insertionSort quoteLE (rs.filter hasValidQuote)
  · exact keyFilter_insertionSort v (rs.filter hasValidQuote)
  · rfl
  · decide
  · decide
  · decide
  · decide

/-- C1: in every polling cycle of `pollCallsForCompletion` run on a
session still in progress, the status is set to `completed` if and only if
every call in `callIds` reported a terminal remote status (`ended` or
`failed`); while any call is non-terminal the status remains `calling`;
and after the cycle, `session.results` holds exactly one entry per element
of `callIds`. -/
theorem call_session_completion (session : CallSession)
    (fetch : String → VapiCallResult) (h : session.status = .calling) :
    ((pollCallsCycle session fetch).status = .completed ↔
      ∀ cid ∈ session.callIds, isTerminalCallStatus (fetch cid).status = true) ∧
    ((¬ ∀ cid ∈ session.callIds, isTerminalCallStatus (fetch cid).status = true) →
      (pollCallsCycle session fetch).status = .calling) ∧
    ∃ rs, (pollCallsCycle session fetch).results = some rs ∧
      rs.length = session.callIds.length := by
  have hiff :
      ((session.callIds.map fetch).all (fun r => isTerminalCallStatus r.status) = true)
        ↔ ∀ cid ∈ session.callIds, isTerminalCallStatus (fetch cid).status = true := by
    simp [List.all_eq_true]
  by_cases hall :
      (session.callIds.map fetch).all (fun r => isTerminalCallStatus r.status) = true
  · refine ⟨?_, ?_, ⟨session.callIds.map fetch, ?_, by simp⟩⟩
    · refine iff_of_true ?_ (hiff.mp hall)
      simp [pollCallsCycle, hall]
    · intro hn
      exact absurd (hiff.mp hall) hn
    · simp [pollCallsCycle, hall]
  · refine ⟨?_, ?_, ⟨session.callIds.map fetch, ?_, by simp⟩⟩
    · refine iff_of_false ?_ (fun hr => hall (hiff.mpr hr))
      simp [pollCallsCycle, hall, h]
    · intro _
      simp [pollCallsCycle, hall, h]
    · simp [pollCallsCycle, hall]

/-- Concrete fetch outcome for the C1 witness: every call has ended. -/
def exFetch : String → VapiCallResult := fun cid =>
  { callId := cid, shopName := "shopA", phoneNumber := "+14155550001",
    status := "ended" }

/-- Concrete in-progress session for the C1 witness. -/
def exSession : CallSession :=
  { sessionId := "session-1", callIds := ["c1", "c2"], shops := [],
    damageDescription := "dent", status := .calling, startTime := 0 }

theorem call_session_completion_witness :
    ((pollCallsCycle exSession exFetch).status = .completed ↔
      ∀ cid ∈ exSession.callIds, isTerminalCallStatus (exFetch cid).status = true) ∧
    ((¬ ∀ cid ∈ exSession.callIds, isTerminalCallStatus (exFetch cid).status = true) →
      (pollCallsCycle exSession exFetch).status = .calling) ∧
    ∃ rs, (pollCallsCycle exSession exFetch).results = some rs ∧
      rs.length = exSession.callIds.length :=
  call_session_completion exSession exFetch rfl

/-- C4: in every polling cycle of `pollBookingForCompletion` run on a
booking still in progress, the status is set to `completed` exactly when
the call reported a terminal status and `result.appointmentBooked` is
true; a terminal call with `appointmentBooked = false` sets the status to
`failed`; the loop timeout also sets `failed`, never `completed`. -/
theorem booking_outcome_gating (booking : BookingSession)
    (result : BookingCallResult) (h : booking.status = .calling) :
    ((pollBookingCycle booking result).status = .completed ↔
      (isTerminalCallStatus result.status = true ∧ result.appointmentBooked = true)) ∧
    (isTerminalCallStatus result.status = true → result.appointmentBooked = false →
      (pollBookingCycle booking result).status = .failed) ∧
    (pollBookingTimeout booking).status = .failed := by
  by_cases ht : isTerminalCallStatus result.status = true
  · by_cases hb : result.appointmentBooked = true
    · simp [pollBookingCycle, pollBookingTimeout, ht, hb]
    · rw [Bool.not_eq_true] at hb
      simp [pollBookingCycle, pollBookingTimeout, ht, hb]
  · simp [pollBookingCycle, pollBookingTimeout, ht, h]

/-- Concrete terminal, unbooked call result for the C4 witness. -/
def exBookingResult : BookingCallResult :=
  { callId := "bc1", shopName := "shopA", phoneNumber := "+14155550001",
    status := "ended", appointmentBooked := false }

/-- Concrete in-progress booking for the C4 witness. -/
def exBooking : BookingSession :=
  { bookingId := "booking-1", callId := "bc1", shopName := "shopA",
    shopPhone := "+14155550001", shopAddress := "1234 Main Street",
    customerName := "Pat", customerPhone := "+14155550009",
    damageDescription := "dent", requestedDate := "tomorrow",
    status := .calling, startTime := 0 }

theorem booking_outcome_gating_witness :
    ((pollBookingCycle exBooking exBookingResult).status = .completed ↔
      (isTerminalCallStatus exBookingResult.status = true ∧
        exBookingResult.appointmentBooked = true)) ∧
    (isTerminalCallStatus exBookingResult.status = true →
      exBookingResult.appointmentBooked = false →
      (pollBookingCycle exBooking exBookingResult).status = .failed) ∧
    (pollBookingTimeout exBooking).status = .failed :=
  booking_outcome_gating exBooking exBookingResult rfl

/-- C5 (counterexample): the maximum wait budgets of the poll loops are
not 600000 ms — `pollCallsForCompletion` uses `5 * 60 * 1000` = 300000 ms,
as do `pollBookingForCompletion` and `pollYutoriResearch`
(60 attempts × 5000 ms). -/
theorem poll_budget_counterexample :
    ¬ (CALL_POLL_MAX_WAIT_MS = 600000 ∧ BOOKING_POLL_MAX_WAIT_MS = 600000 ∧
       YUTORI_POLL_MAX_WAIT_MS = 600000) := by
  decide

/-- C5 (amended): the poll loops for research tasks, quote-call sessions
and booking-call sessions all use a 5000 ms poll interval and a 300000 ms
(five-minute) maximum wait budget. -/
theorem poll_intervals_and_budgets :
    CALL_POLL_INTERVAL_MS = 5000 ∧ BOOKING_POLL_INTERVAL_MS = 5000 ∧
    YUTORI_POLL_INTERVAL_MS = 5000 ∧ CALL_POLL_MAX_WAIT_MS = 300000 ∧
    BOOKING_POLL_MAX_WAIT_MS = 300000 ∧ YUTORI_POLL_MAX_WAIT_MS = 300000 := by
  decide

/-- C6: the cache key is the lowercased location with every character
outside `[a-z0-9]` replaced by an underscore (witnessed concretely on
"San Jose, CA!"), so any two locations with the same key read the same
entry, both before and after a `put` under either location. -/
theorem cache_key_normalization (cache : CacheData) (L1 L2 : String)
    (shops : List Shop) (dd : Option String) (now : Int)
    (h : getCacheKey L1 = getCacheKey L2) :
    getCachedResults cache L1 = getCachedResults cache L2 ∧
    getCachedResults (updateCacheLocal cache L1 shops dd now) L1
      = getCachedResults (updateCacheLocal cache L1 shops dd now) L2 ∧
    getCachedResults (updateCacheLocal cache L2 shops dd now) L1
      = getCachedResults (updateCacheLocal cache L2 shops dd now) L2 ∧
    getCacheKey "San Jose, CA!" = "san_jose__ca_" := by
  refine ⟨?_, ?_, ?_, by decide⟩ <;>
    simp [getCachedResults, updateCacheLocal, h]

theorem cache_key_normalization_witness :
    getCachedResults (fun _ => none) "San Jose, CA!"
      = getCachedResults (fun _ => none) "San Jose, CA?" ∧
    getCachedResults (updateCacheLocal (fun _ => none) "San Jose, CA!" [] none 0)
        "San Jose, CA!"
      = getCachedResults (updateCacheLocal (fun _ => none) "San Jose, CA!" [] none 0)
        "San Jose, CA?" ∧
    getCachedResults (updateCacheLocal (fun _ => none) "San Jose, CA?" [] none 0)
        "San Jose, CA!"
      = getCachedResults (updateCacheLocal (fun _ => none) "San Jose, CA?" [] none 0)
        "San Jose, CA?" ∧
    getCacheKey "San Jose, CA!" = "san_jose__ca_" :=
  cache_key_normalization (fun _ => none) "San Jose, CA!" "San Jose, CA?" [] none 0
    (by decide)

/-- C3: when the fetch race times out and no cache entry exists, the
search endpoint answers with `cached = true` and the non-empty
deterministic fallback dataset — never an empty list, and (the handler
being a total function) never a thrown error; the race budget is
`API_TIMEOUT_MS = 15000`. -/
theorem search_timeout_no_cache_fallback (location : String) (lat lon : ℚ)
    (dd : Option String) (radius : ℚ) (race : FetchOutcome)
    (hrace : race = .timeout) :
    API_TIMEOUT_MS = 15000 ∧
    (searchShopsHandler true location lat lon dd radius none race).cached
      = some true ∧
    (searchShopsHandler true location lat lon dd radius none race).shops
      = generateMockShops lat lon ∧
    (searchShopsHandler true location lat lon dd radius none race).shops ≠ [] := by
  subst hrace
  refine ⟨rfl, rfl, rfl, ?_⟩
  simp [searchShopsHandler, searchShopsMockFallback, generateMockShops]

theorem search_timeout_no_cache_fallback_witness :
    API_TIMEOUT_MS = 15000 ∧
    (searchShopsHandler true "San Jose, CA" 37 (-121) (some "dent") 5 none
        .timeout).cached = some true ∧
    (searchShopsHandler true "San Jose, CA" 37 (-121) (some "dent") 5 none
        .timeout).shops = generateMockShops 37 (-121) ∧
    (searchShopsHandler true "San Jose, CA" 37 (-121) (some "dent") 5 none
        .timeout).shops ≠ [] :=
  search_timeout_no_cache_fallback "San Jose, CA" 37 (-121) (some "dent") 5
    .timeout rfl

/-- The empty local cache tier (used by concrete witnesses). -/
def emptyLocalCache : CacheData := fun _ => none

/-- The empty remote cache tier (used by concrete witnesses). -/
def emptyRemoteDB : RemoteDB := fun _ => none

/-- C7 (counterexample): the live cache put path, `updateCacheAsync`
(called by the fetch completion path as `await updateCacheAsync(...)`),
awaits the DynamoDB write before returning, so the remote write is not
fire-and-forget there: the caller is blocked until it settles. -/
theorem cache_put_blocking_counterexample :
    ¬ ((updateCacheAsync emptyLocalCache emptyRemoteDB true false
        "San Jose" [] none 0).callerAwaitsRemote = false) := by
  decide

/-- C7 (amended): both put variants write the entry to the local file tier
and to DynamoDB, and a remote write failure is absorbed (the table is
simply left unchanged; no error reaches the caller); `updateCache` starts
the remote write fire-and-forget, while `updateCacheAsync` — the variant
the fetch path actually calls — awaits it. -/
theorem cache_put_two_tier (cache : CacheData) (db : RemoteDB)
    (enabled failWrite : Bool) (loc : String) (shops : List Shop)
    (dd : Option String) (now : Int) :
    (updateCache cache db enabled failWrite loc shops dd now).localCache
      = updateCacheLocal cache loc shops dd now ∧
    (updateCacheAsync cache db enabled failWrite loc shops dd now).localCache
      = updateCacheLocal cache loc shops dd now ∧
    (updateCache cache db enabled failWrite loc shops dd now).remoteDB
      = saveToDynamoDB enabled failWrite db loc shops dd now ∧
    (updateCacheAsync cache db enabled failWrite loc shops dd now).remoteDB
      = saveToDynamoDB enabled failWrite db loc shops dd now ∧
    getCachedResults
        (updateCache cache db enabled failWrite loc shops dd now).localCache loc
      = some { location := loc, shops := shops, timestamp := now,
               damage_description := dd } ∧
    (enabled = true → failWrite = false →
      (updateCache cache db enabled failWrite loc shops dd now).remoteDB
          (getCacheKey loc)
        = some { pk := getCacheKey loc, location := loc, shops := shops,
                 timestamp := now, damage_description := dd.getD "",
                 ttl := now / 1000 + 7 * 24 * 60 * 60 }) ∧
    (failWrite = true →
      (updateCache cache db enabled failWrite loc shops dd now).remoteDB = db ∧
      (updateCacheAsync cache db enabled failWrite loc shops dd now).remoteDB = db) ∧
    (updateCache cache db enabled failWrite loc shops dd now).callerAwaitsRemote
      = false ∧
    (updateCacheAsync cache db enabled failWrite loc shops dd now).callerAwaitsRemote
      = true := by
  refine ⟨rfl, rfl, rfl, rfl, ?_, ?_, ?_, rfl, rfl⟩
  · simp [getCachedResults, updateCache, updateCacheLocal]
  · rintro rfl rfl
    simp [updateCache, saveToDynamoDB]
  · rintro rfl
    constructor <;> cases enabled <;>
      simp [updateCache, updateCacheAsync, saveToDynamoDB]

theorem cache_put_two_tier_witness :
    (updateCache emptyLocalCache emptyRemoteDB true false "San Jose" [] none
        0).remoteDB (getCacheKey "San Jose")
      = some { pk := getCacheKey "San Jose", location := "San Jose", shops := [],
               timestamp := 0, damage_description := "",
               ttl := 0 / 1000 + 7 * 24 * 60 * 60 } ∧
    (updateCache emptyLocalCache emptyRemoteDB true true "San Jose" [] none
        0).remoteDB = emptyRemoteDB ∧
    (updateCacheAsync emptyLocalCache emptyRemoteDB true false "San Jose" [] none
        0).callerAwaitsRemote = true := by
  refine ⟨?_, ?_, ?_⟩
  · exact (cache_put_two_tier emptyLocalCache emptyRemoteDB true false
      "San Jose" [] none 0).2.2.2.2.2.1 rfl rfl
  · exact ((cache_put_two_tier emptyLocalCache emptyRemoteDB true true
      "San Jose" [] none 0).2.2.2.2.2.2.1 rfl).1
  · exact (cache_put_two_tier emptyLocalCache emptyRemoteDB true false
      "San Jose" [] none 0).2.2.2.2.2.2.2.2

/-- C8: a cache lookup that misses the local tier and hits DynamoDB
returns the converted remote entry, and on every path the local tier is
returned unchanged — the remote hit is not written back to the local file
cache. -/
theorem remote_hit_no_writeback (cache : CacheData) (enabled failRead : Bool)
    (db : RemoteDB) (location : String) :
    (getCachedResultsAsync cache enabled failRead db location).2 = cache ∧
    (getCachedResults cache location = none →
      ∀ item, getFromDynamoDB enabled failRead db location = some item →
        (getCachedResultsAsync cache enabled failRead db location).1
          = some { location := item.location, shops := item.shops,
                   timestamp := item.timestamp,
                   damage_description := some item.damage_description }) := by
  constructor
  · rcases hl : getCachedResults cache location with _ | e
    · rcases hr : getFromDynamoDB enabled failRead db location with _ | item
      · simp [getCachedResultsAsync, hl, hr]
      · simp [getCachedResultsAsync, hl, hr]
    · simp [getCachedResultsAsync, hl]
  · intro hl item hr
    simp [getCachedResultsAsync, hl, hr]

/-- A concrete DynamoDB item for the C8 witness. -/
def exRemoteItem : RemoteItem :=
  { pk := "sf", location := "SF", shops := [], timestamp := 42,
    damage_description := "dent", ttl := 1000 }

/-- A remote tier holding exactly `exRemoteItem` (under the key of "SF"). -/
def exRemoteDB : RemoteDB := fun k => if k = "sf" then some exRemoteItem else none

theorem remote_hit_no_writeback_witness :
    (getCachedResultsAsync emptyLocalCache true false exRemoteDB "SF").2
      = emptyLocalCache ∧
    (getCachedResultsAsync emptyLocalCache true false exRemoteDB "SF").1
      = some { location := "SF", shops := [], timestamp := 42,
               damage_description := some "dent" } := by
  have h := remote_hit_no_writeback emptyLocalCache true false exRemoteDB "SF"
  exact ⟨h.1, h.2 rfl exRemoteItem (by decide)⟩

theorem jsSliceTo_length_le {α : Type} (l : List α) (e : Int) (he : 0 ≤ e) :
    (jsSliceTo l e).length ≤ e.toNat := by
  simp only [jsSliceTo, if_pos he, List.length_take]
  omega

theorem shopsToCall_length_le (shops : List InputShop) (limit : Int)
    (h : (0:Int) ≤ min limit 2) :
    (shopsToCall shops limit).length ≤ (min limit 2).toNat := by
  simpa [shopsToCall] using jsSliceTo_length_le shops (min limit 2) h

theorem callMultipleShops_length_le (l : List ShopContact) (dd : String)
    (limit : Int) (create : ShopContact → String → Option VapiCallResponse)
    (h : 0 ≤ limit) :
    (callMultipleShops l dd limit create).length ≤ limit.toNat := by
  calc (callMultipleShops l dd limit create).length
      ≤ ((jsSliceTo l limit).map (fun s => create s dd)).length :=
        List.length_filterMap_le _ _
    _ = (jsSliceTo l limit).length := by simp
    _ ≤ limit.toNat := jsSliceTo_length_le _ _ h

/-- C9: for every start-quote-calls request with a nonnegative `limit`
(covering both the default `limit = 2` and any value greater than 2), at
most `min(limit, 2)` call creations are attempted, the persisted session's
`shops` list has length at most `min(limit, 2)`, and the session's
`shops` and `callIds` and the returned `shopsBeingCalled` all have length
at most 2 — in the real-call path and the mock path alike. -/
theorem call_limit_bound (hasVapi : Bool) (shops : List InputShop)
    (dd : String) (limit : Int)
    (create : ShopContact → String → Option VapiCallResponse) (now : Int)
    (hlim : 0 ≤ limit) :
    (callShopsHandler hasVapi shops dd limit create now).session.shops.length ≤ 2 ∧
    (callShopsHandler hasVapi shops dd limit create now).session.callIds.length ≤ 2 ∧
    (callShopsHandler hasVapi shops dd limit create now).shopsBeingCalled.length ≤ 2 ∧
    (callShopsHandler hasVapi shops dd limit create now).attemptedCalls
      ≤ (min limit 2).toNat ∧
    (callShopsHandler hasVapi shops dd limit create now).session.shops.length
      ≤ (min limit 2).toNat := by
  have hmin : (0:Int) ≤ min limit 2 := le_min hlim (by norm_num)
  have hmin2 : min limit 2 ≤ 2 := min_le_right limit 2
  have htwo : (min limit 2).toNat ≤ 2 := by omega
  have hshops : (shopsToCall shops limit).length ≤ (min limit 2).toNat :=
    shopsToCall_length_le shops limit hmin
  have hcalls :
      (callMultipleShops (shopsToCall shops limit) dd (min limit 2) create).length
        ≤ (min limit 2).toNat :=
    callMultipleShops_length_le _ dd (min limit 2) create hmin
  cases hasVapi with
  | false =>
    refine ⟨le_trans ?_ htwo, ?_, le_trans ?_ htwo, ?_, ?_⟩ <;>
      simp [callShopsHandler] <;> exact hshops
  | true =>
    refine ⟨le_trans ?_ htwo, le_trans ?_ htwo, le_trans ?_ htwo, ?_, ?_⟩ <;>
      simp [callShopsHandler] <;>
      first
        | exact hshops
        | exact hcalls
        | exact le_trans (jsSliceTo_length_le _ _ hmin) (le_refl _)

/-- A concrete request shop for the C9/C10 witnesses. -/
def exInputShop : InputShop :=
  { shop_name := some "Elite Auto Body", phone_number := some "+14085551234",
    address := "1234 Main Street", city := "San Jose", state := "CA" }

/-- A call creator that always succeeds (C9 witness). -/
def exCreate : ShopContact → String → Option VapiCallResponse := fun s _ =>
  some { id := "id-" ++ s.name, status := "queued", shopName := s.name,
         phoneNumber := s.phone }

theorem call_limit_bound_witness :
    (callShopsHandler true [exInputShop, exInputShop, exInputShop] "dent" 5
        exCreate 0).session.shops.length ≤ 2 ∧
    (callShopsHandler true [exInputShop, exInputShop, exInputShop] "dent" 5
        exCreate 0).session.callIds.length ≤ 2 ∧
    (callShopsHandler true [exInputShop, exInputShop, exInputShop] "dent" 5
        exCreate 0).shopsBeingCalled.length ≤ 2 ∧
    (callShopsHandler true [exInputShop, exInputShop, exInputShop] "dent" 5
        exCreate 0).attemptedCalls ≤ (min 5 2 : Int).toNat ∧
    (callShopsHandler true [exInputShop, exInputShop, exInputShop] "dent" 5
        exCreate 0).session.shops.length ≤ (min 5 2 : Int).toNat :=
  call_limit_bound true [exInputShop, exInputShop, exInputShop] "dent" 5
    exCreate 0 (by decide)

theorem callMultipleShops_all_fail (l : List ShopContact) (dd : String)
    (limit : Int) (create : ShopContact → String → Option VapiCallResponse)
    (hfail : ∀ s d, create s d = none) :
    callMultipleShops l dd limit create = [] := by
  unfold callMultipleShops
  generalize jsSliceTo l limit = t
  induction t with
  | nil => rfl
  | cons s t ih => simp [hfail, ih]

/-- C10: when every call creation fails, the start-quote-calls endpoint
still persists a session with an empty `callIds` and status `calling`, and
the first poll cycle then marks it `completed` (not `failed`) with an
empty results list and an analysis whose summary states that no
quotations were obtained. -/
theorem all_call_creations_fail_completes_empty (shops : List InputShop)
    (dd : String) (limit : Int)
    (create : ShopContact → String → Option VapiCallResponse) (now : Int)
    (fetch : String → VapiCallResult) (hfail : ∀ s d, create s d = none) :
    (callShopsHandler true shops dd limit create now).session.callIds = [] ∧
    (callShopsHandler true shops dd limit create now).session.status = .calling ∧
    (pollCallsCycle (callShopsHandler true shops dd limit create now).session
        fetch).status = .completed ∧
    (pollCallsCycle (callShopsHandler true shops dd limit create now).session
        fetch).results = some [] ∧
    (pollCallsCycle (callShopsHandler true shops dd limit create now).session
        fetch).analysis = some (analyzeAndRankQuotes []) ∧
    (analyzeAndRankQuotes []).summary
      = "Analyzed 0 repair shop(s).\nNo quotations were obtained from the calls." ∧
    strContains (analyzeAndRankQuotes []).summary "No quotations were obtained"
      = true := by
  have hempty :=
    callMultipleShops_all_fail (shopsToCall shops limit) dd (min limit 2)
      create hfail
  have hsess :
      (callShopsHandler true shops dd limit create now).session.callIds = [] := by
    simp [callShopsHandler, hempty]
  have hstat :
      (callShopsHandler true shops dd limit create now).session.status
        = .calling := by
    simp [callShopsHandler]
  refine ⟨hsess, hstat, ?_, ?_, ?_, by decide, by decide⟩
  · simp [pollCallsCycle, hsess]
  · simp [pollCallsCycle, hsess]
  · simp [pollCallsCycle, hsess]

/-- A call creator that always fails (C10 witness). -/
def noCreate : ShopContact → String → Option VapiCallResponse := fun _ _ => none

/-- The fetch used by the C10 witness (never consulted: no calls exist). -/
def exFetchUnused : String → VapiCallResult := fun cid =>
  { callId := cid, shopName := "shopA", phoneNumber := "+14155550001",
    status := "queued" }

theorem all_call_creations_fail_completes_empty_witness :
    (callShopsHandler true [exInputShop] "dent" 2 noCreate 0).session.callIds
      = [] ∧
    (callShopsHandler true [exInputShop] "dent" 2 noCreate 0).session.status
      = .calling ∧
    (pollCallsCycle (callShopsHandler true [exInputShop] "dent" 2 noCreate
        0).session exFetchUnused).status = .completed ∧
    (pollCallsCycle (callShopsHandler true [exInputShop] "dent" 2 noCreate
        0).session exFetchUnused).results = some [] ∧
    (pollCallsCycle (callShopsHandler true [exInputShop] "dent" 2 noCreate
        0).session exFetchUnused).analysis = some (analyzeAndRankQuotes []) ∧
    (analyzeAndRankQuotes []).summary
      = "Analyzed 0 repair shop(s).\nNo quotations were obtained from the calls." ∧
    strContains (analyzeAndRankQuotes []).summary "No quotations were obtained"
      = true :=
  all_call_creations_fail_completes_empty [exInputShop] "dent" 2 noCreate 0
    exFetchUnused (fun _ _ => rfl)

end AutoQuote
